import Mathlib

set_option maxRecDepth 8000

/-!
Verification development for the SimpleRAG4Repo repository.

Each Python component relevant to the claims is translated into a
shallow Lean embedding: pure functions become Lean functions, the
LLM / retriever / filesystem services the code calls out to become
explicit function parameters, Python exceptions become `Except PyExc`,
and side effects (printing, vector-store calls) become explicit event
traces.  Machine arithmetic in the sources is over Python unbounded
ints, modelled by `Nat`/`Int`; wall-clock times are modelled by `ℚ`.
-/

namespace SimpleRAG

/-- A langchain `Document`: page content plus string-valued metadata
(the only metadata shapes these claims touch are string scalars). -/
structure Document where
  page_content : String
  metadata : List (String × String)
deriving DecidableEq, Repr

/-- Python runtime values produced by `json.loads` / `ast.literal_eval`
and handled by `adaptive_retrieval` (strings, booleans, ints, `None`,
lists, dicts). Dicts are association lists in insertion order; duplicate
keys resolve to the last occurrence, as in Python. -/
inductive PyVal where
  | str (s : String)
  | bool (b : Bool)
  | int (n : Int)
  | none
  | list (xs : List PyVal)
  | dict (kvs : List (String × PyVal))

/-- Python exceptions distinguished by the sources' `except` clauses.
`json.JSONDecodeError` is the only class caught by the analysis-parsing
block in `adaptive_retrieval`; `ast.literal_eval` failures surface as
`ValueError`/`SyntaxError`, both modelled by `valueError` here (neither
is a `JSONDecodeError`, which is all that block's handler tests). -/
inductive PyExc where
  | jsonDecodeError (msg : String)
  | valueError (msg : String)
  | keyError (key : String)
  | typeError (msg : String)
  | zeroDivisionError
deriving DecidableEq, Repr

/-- Python `a == "s"` where `a` is an arbitrary parsed value and the
right-hand side is a string literal: true exactly when `a` is the same
string (Python `==` between a non-str value and a str is `False`). -/
def pyEqStr (v : PyVal) (s : String) : Bool :=
  match v with
  | .str t => t == s
  | _ => false

/-- Python dict subscript lookup: last binding of the key wins
(association lists here record insertion order). -/
def pyDictGet (kvs : List (String × PyVal)) (key : String) : Option PyVal :=
  (kvs.filterMap (fun kv => if kv.1 = key then some kv.2 else Option.none)).getLast?

/-- Python `v[key]`: `KeyError` on a dict without the key, `TypeError`
when the value is not a dict. -/
def pyGetItem (v : PyVal) (key : String) : Except PyExc PyVal :=
  match v with
  | .dict kvs =>
    match pyDictGet kvs key with
    | some w => .ok w
    | Option.none => .error (.keyError key)
  | _ => .error (.typeError "object is not subscriptable")

/-- Python `a // b` on non-negative ints: floor division, raising
`ZeroDivisionError` on a zero divisor. -/
def pyFloorDiv (a b : Nat) : Except PyExc Nat :=
  if b = 0 then .error .zeroDivisionError else .ok (a / b)

/-! JSON parsing (a model of `json.loads`).

The claims need `json.loads` only through its success/failure behaviour
on the analysis strings `adaptive_retrieval` feeds it, so the model is a
recursive-descent parser over the JSON fragment those strings use:
objects, arrays, double-quoted strings with the common escapes, integer
numbers, `true`/`false`/`null`, with surrounding whitespace, and the
whole input must be consumed (Python's "Extra data" error otherwise).
Recursion is fuelled; `jsonLoads` supplies ample fuel for its input. -/

/-- Skip JSON whitespace. -/
def jsonSkipWs : List Char → List Char
  | [] => []
  | c :: cs => if c = ' ' || c = '\t' || c = '\n' || c = '\r' then jsonSkipWs cs else c :: cs

/-- Consume a string-literal body up to an unescaped closing quote
`q`, translating the common escape sequences. -/
def stringLitBody (q : Char) : Nat → List Char → List Char → Option (String × List Char)
  | 0, _, _ => Option.none
  | _, [], _ => Option.none
  | fuel + 1, c :: cs, acc =>
    if c = q then some (String.mk acc.reverse, cs)
    else if c = '\\' then
      match cs with
      | [] => Option.none
      | e :: cs' =>
        let ech : Option Char :=
          if e = '"' then some '"'
          else if e = '\'' then some '\''
          else if e = '\\' then some '\\'
          else if e = '/' then some '/'
          else if e = 'n' then some '\n'
          else if e = 't' then some '\t'
          else if e = 'r' then some '\r'
          else Option.none
        match ech with
        | some ch => stringLitBody q fuel cs' (ch :: acc)
        | Option.none => Option.none
    else stringLitBody q fuel cs (c :: acc)

/-- Consume a run of decimal digits as a natural number. -/
def takeDigits (cs : List Char) : Option (Nat × List Char) :=
  let ds := cs.takeWhile Char.isDigit
  if ds.isEmpty then Option.none
  else some (ds.foldl (fun n c => n * 10 + (c.toNat - 48)) 0, cs.dropWhile Char.isDigit)

/-- Match a literal tail (e.g. the "rue" after a 't') and return the rest. -/
def dropLit (pat : String) (cs : List Char) : Option (List Char) :=
  if cs.take pat.length = pat.data then some (cs.drop pat.length) else Option.none

mutual

/-- Parse one JSON value, returning it and the unconsumed input. -/
def jsonVal : Nat → List Char → Option (PyVal × List Char)
  | 0, _ => Option.none
  | fuel + 1, cs =>
    match jsonSkipWs cs with
    | [] => Option.none
    | c :: cs' =>
      if c = '"' then
        match stringLitBody '"' (cs'.length + 1) cs' [] with
        | some (s, rest) => some (.str s, rest)
        | Option.none => Option.none
      else if c = '\x7b' then
        match jsonSkipWs cs' with
        | '\x7d' :: rest => some (.dict [], rest)
        | cs'' => jsonObjTail fuel cs'' []
      else if c = '[' then
        match jsonSkipWs cs' with
        | ']' :: rest => some (.list [], rest)
        | cs'' => jsonArrTail fuel cs'' []
      else if c = 't' then
        (dropLit "rue" cs').map (fun rest => (.bool true, rest))
      else if c = 'f' then
        (dropLit "alse" cs').map (fun rest => (.bool false, rest))
      else if c = 'n' then
        (dropLit "ull" cs').map (fun rest => (PyVal.none, rest))
      else if c = '-' then
        (takeDigits cs').map (fun p => (.int (-(p.1 : Int)), p.2))
      else if c.isDigit then
        (takeDigits (c :: cs')).map (fun p => (.int (p.1 : Int), p.2))
      else Option.none

/-- Parse the members of a JSON object after its opening brace
(first member onward), accumulating key/value pairs. -/
def jsonObjTail : Nat → List Char → List (String × PyVal) → Option (PyVal × List Char)
  | 0, _, _ => Option.none
  | fuel + 1, cs, acc =>
    match cs with
    | '"' :: cs' =>
      match stringLitBody '"' (cs'.length + 1) cs' [] with
      | some (key, rest) =>
        match jsonSkipWs rest with
        | ':' :: rest' =>
          match jsonVal fuel rest' with
          | some (v, rest'') =>
            match jsonSkipWs rest'' with
            | ',' :: more => jsonObjTail fuel (jsonSkipWs more) (acc ++ [(key, v)])
            | '\x7d' :: more => some (.dict (acc ++ [(key, v)]), more)
            | _ => Option.none
          | Option.none => Option.none
        | _ => Option.none
      | Option.none => Option.none
    | _ => Option.none

/-- Parse the elements of a JSON array after its opening bracket. -/
def jsonArrTail : Nat → List Char → List PyVal → Option (PyVal × List Char)
  | 0, _, _ => Option.none
  | fuel + 1, cs, acc =>
    match jsonVal fuel cs with
    | some (v, rest) =>
      match jsonSkipWs rest with
      | ',' :: more => jsonArrTail fuel more (acc ++ [v])
      | ']' :: more => some (.list (acc ++ [v]), more)
      | _ => Option.none
    | Option.none => Option.none

end

/-- Model of `json.loads`: parse one value, require the remaining input
to be whitespace, and report any failure as a `JSONDecodeError`. -/
def jsonLoads (s : String) : Except PyExc PyVal :=
  match jsonVal (2 * s.length + 2) s.data with
  | some (v, rest) =>
    if (jsonSkipWs rest).isEmpty then .ok v
    else .error (.jsonDecodeError "Extra data")
  | Option.none => .error (.jsonDecodeError "Expecting value")

/-! Python-literal parsing (a model of `ast.literal_eval`).

As with `json.loads`, only success/failure and the resulting value on
literal-shaped inputs matter to the claims, so the fragment covered is
dicts, lists, single- or double-quoted strings, ints, `True`, `False`
and `None`; anything else fails.  Whatever the concrete Python failure
class (`SyntaxError` for unparsable source, `ValueError` for a parsed
non-literal node), it is not a `json.JSONDecodeError`, which is all
the caller's `except` clause distinguishes; the model reports every
failure as `valueError`. -/

mutual

/-- Parse one Python literal value, returning it and the unconsumed input. -/
def litVal : Nat → List Char → Option (PyVal × List Char)
  | 0, _ => Option.none
  | fuel + 1, cs =>
    match jsonSkipWs cs with
    | [] => Option.none
    | c :: cs' =>
      if c = '"' || c = '\'' then
        match stringLitBody c (cs'.length + 1) cs' [] with
        | some (s, rest) => some (.str s, rest)
        | Option.none => Option.none
      else if c = '\x7b' then
        match jsonSkipWs cs' with
        | '\x7d' :: rest => some (.dict [], rest)
        | cs'' => litDictTail fuel cs'' []
      else if c = '[' then
        match jsonSkipWs cs' with
        | ']' :: rest => some (.list [], rest)
        | cs'' => litListTail fuel cs'' []
      else if c = 'T' then
        (dropLit "rue" cs').map (fun rest => (.bool true, rest))
      else if c = 'F' then
        (dropLit "alse" cs').map (fun rest => (.bool false, rest))
      else if c = 'N' then
        (dropLit "one" cs').map (fun rest => (PyVal.none, rest))
      else if c = '-' then
        (takeDigits cs').map (fun p => (.int (-(p.1 : Int)), p.2))
      else if c.isDigit then
        (takeDigits (c :: cs')).map (fun p => (.int (p.1 : Int), p.2))
      else Option.none

/-- Parse the entries of a Python dict literal after its opening brace
(first entry onward); keys are restricted to string literals, the only
key shape the analysed strings use. -/
def litDictTail : Nat → List Char → List (String × PyVal) → Option (PyVal × List Char)
  | 0, _, _ => Option.none
  | fuel + 1, cs, acc =>
    match cs with
    | q :: cs' =>
      if q = '"' || q = '\'' then
        match stringLitBody q (cs'.length + 1) cs' [] with
        | some (key, rest) =>
          match jsonSkipWs rest with
          | ':' :: rest' =>
            match litVal fuel rest' with
            | some (v, rest'') =>
              match jsonSkipWs rest'' with
              | ',' :: more => litDictTail fuel (jsonSkipWs more) (acc ++ [(key, v)])
              | '\x7d' :: more => some (.dict (acc ++ [(key, v)]), more)
              | _ => Option.none
            | Option.none => Option.none
          | _ => Option.none
        | Option.none => Option.none
      else Option.none
    | [] => Option.none

/-- Parse the elements of a Python list literal after its opening bracket. -/
def litListTail : Nat → List Char → List PyVal → Option (PyVal × List Char)
  | 0, _, _ => Option.none
  | fuel + 1, cs, acc =>
    match litVal fuel cs with
    | some (v, rest) =>
      match jsonSkipWs rest with
      | ',' :: more => litListTail fuel more (acc ++ [v])
      | ']' :: more => some (.list (acc ++ [v]), more)
      | _ => Option.none
    | Option.none => Option.none

end

/-- Model of `ast.literal_eval`: parse one literal from the whole
string; any failure is a non-`JSONDecodeError` exception. -/
def literalEval (s : String) : Except PyExc PyVal :=
  match litVal (2 * s.length + 2) s.data with
  | some (v, rest) =>
    if (jsonSkipWs rest).isEmpty then .ok v
    else .error (.valueError "malformed node or string")
  | Option.none => .error (.valueError "malformed node or string")

/-! The Advanced RAG Orchestrator (`src/retrieval/advanced_rag.py`,
`AdvancedRAGProcessor.adaptive_retrieval`). -/

/-- The fixed analysis `adaptive_retrieval` substitutes when its
`except json.JSONDecodeError` handler fires (advanced_rag.py lines
179-184).  Note it carries no `explanation` key. -/
def defaultQueryAnalysis : PyVal :=
  .dict [("complexity", .str "medium"),
         ("requires_code_examples", .bool false),
         ("is_technical", .bool true),
         ("recommended_strategy", .str "basic")]

/-- The default analysis as the specification words it, including the
`explanation` field; kept separate from `defaultQueryAnalysis` (which
is translated from the source) so the two can be compared. -/
def specDefaultAnalysis : PyVal :=
  .dict [("complexity", .str "medium"),
         ("requires_code_examples", .bool false),
         ("is_technical", .bool true),
         ("recommended_strategy", .str "basic"),
         ("explanation", .str "parsing failed, using default strategy")]

/-- Python `s.startswith(p)`: character-level prefix test. -/
def pyStartsWith (s p : String) : Bool :=
  p.data.isPrefixOf s.data

/-- Python `s.endswith(p)`: character-level suffix test. -/
def pyEndsWith (s p : String) : Bool :=
  p.data.isSuffixOf s.data

/-- Python slice `s[7:-3]`: characters from index 7 up to (but not
including) index `len - 3`, empty when the range is empty. -/
def pySlice7ToNeg3 (s : String) : String :=
  let l := s.data.drop 7
  String.mk (l.take (l.length - 3))

/-- Embedding of the analysis-parsing block of `adaptive_retrieval`
(advanced_rag.py lines 162-186): a fenced ```json block is sliced and
fed to `json.loads`; any other string goes to `ast.literal_eval` (the
`analysis_result` produced by `LLMChain.run` is always a string, so the
source's already-a-dict branch is unreachable); only a
`json.JSONDecodeError` is caught and replaced with the default
analysis — every other exception propagates. -/
def parseQueryAnalysis (analysis_result : String) : Except PyExc PyVal :=
  let attempt : Except PyExc PyVal :=
    if pyStartsWith analysis_result "```json" then
      jsonLoads (pySlice7ToNeg3 analysis_result)
    else
      literalEval analysis_result
  match attempt with
  | .ok a => .ok a
  | .error (.jsonDecodeError _) => .ok defaultQueryAnalysis
  | .error e => .error e

/-- The de-duplication loop shared by `adaptive_retrieval` and
`QueryDecompositionStrategy.retrieve`: a `seen_contents` set (modelled
as a list with membership) plus an output list, keeping the first
document carrying each `page_content`. -/
def dedupByContent (all_docs : List Document) : List Document :=
  (all_docs.foldl
    (fun (st : List String × List Document) doc =>
      if doc.page_content ∈ st.1 then st
      else (doc.page_content :: st.1, st.2 ++ [doc]))
    ([], [])).2

/-- The `retrieval_metadata` dict assembled by `adaptive_retrieval`:
the parsed analysis, the strategy actually executed, and the
strategy-specific keys that are only present on some branches. -/
structure AdaptiveRetrievalMetadata where
  analysis : PyVal
  strategy_used : String
  subquestions : Option (List String)
  rewritten_query : Option String

/-- Embedding of `AdvancedRAGProcessor.adaptive_retrieval`
(advanced_rag.py lines 130-229).  The external services the method
calls are parameters: `base_retriever` is the optional bound retriever
(`None` raises `ValueError`), `analysis_chain_run` is the LLM analysis
chain, `query_rewrite` and `query_decomposition` are the processor's
own LLM-backed helpers (whose internal parse fallbacks make them total
string functions), and the retriever is a function from query and `k`
to documents.  Branch order and the short-circuit evaluation of
`analysis["recommended_strategy"]` / `analysis["complexity"]`
subscripts follow the source. -/
def adaptive_retrieval
    (base_retriever : Option (String → Nat → List Document))
    (analysis_chain_run : String → String)
    (query_rewrite : String → String)
    (query_decomposition : String → List String)
    (query : String) (k : Nat) :
    Except PyExc (List Document × AdaptiveRetrievalMetadata) := do
  match base_retriever with
  | Option.none => Except.error (.valueError "需要base_retriever来执行检索")
  | some retr => do
    let analysis ← parseQueryAnalysis (analysis_chain_run query)
    let rs ← pyGetItem analysis "recommended_strategy"
    if pyEqStr rs "basic" then
      pure (retr query k,
            ⟨analysis, "basic", Option.none, Option.none⟩)
    else do
      let cx ← pyGetItem analysis "complexity"
      if pyEqStr cx "simple" then
        pure (retr query k,
              ⟨analysis, "basic", Option.none, Option.none⟩)
      else if pyEqStr rs "decomposition" || pyEqStr cx "complex" then do
        let subquestions := query_decomposition query
        let all_docs ← subquestions.foldlM
          (fun (acc : List Document) subq => do
            let rewritten_subq := query_rewrite subq
            let kq ← pyFloorDiv k subquestions.length
            pure (acc ++ retr rewritten_subq (max 2 kq)))
          ([] : List Document)
        let documents := (dedupByContent all_docs).take k
        pure (documents,
              ⟨analysis, "decomposition", some subquestions, Option.none⟩)
      else do
        let rewritten_query := query_rewrite query
        pure (retr rewritten_query k,
              ⟨analysis, "hybrid", Option.none, some rewritten_query⟩)

/-! The decomposition retrieval strategy
(`src/retrieval/retrieval_strategies.py`, `QueryDecompositionStrategy`). -/

/-- The metadata dict returned by `QueryDecompositionStrategy.retrieve`. -/
structure DecompositionMetadata where
  strategy : String
  k : Nat
  original_query : String
  subquestions : List String
deriving DecidableEq, Repr

/-- Embedding of `QueryDecompositionStrategy.retrieve`
(retrieval_strategies.py lines 92-127): decompose the query, then for
each sub-question rewrite it and retrieve
`max(2, k // len(subquestions))` documents (the floor division is
evaluated inside the loop body, so it runs once per sub-question),
concatenate, de-duplicate by exact `page_content`, truncate to `k`.
`retriever`, `rewrite_query` and `decompose_query` stand for the base
retriever and the LLM-backed `QueryProcessors` helpers; the `@timed`
decorator only touches the global timing statistics, not the value
computed here. -/
def QueryDecompositionStrategy.retrieve
    (retriever : String → Nat → List Document)
    (rewrite_query : String → String)
    (decompose_query : String → List String)
    (query : String) (k : Nat) :
    Except PyExc (List Document × DecompositionMetadata) := do
  let subquestions := decompose_query query
  let all_docs ← subquestions.foldlM
    (fun (acc : List Document) subq => do
      let rewritten_subq := rewrite_query subq
      let kq ← pyFloorDiv k subquestions.length
      pure (acc ++ retriever rewritten_subq (max 2 kq)))
    ([] : List Document)
  let documents := (dedupByContent all_docs).take k
  pure (documents, ⟨"decomposition", k, query, subquestions⟩)

/-! The performance timing utility (`src/utils/performance.py`,
`TimingStats`).  Wall-clock instants and durations are modelled by `ℚ`;
`float('inf')`, the initial `min_time`, by `⊤ : WithTop ℚ`. -/

/-- One operation's accumulated entry in `TimingStats.stats`. -/
structure OpStats where
  count : Nat
  total_time : ℚ
  min_time : WithTop ℚ
  max_time : ℚ
deriving DecidableEq

/-- The fresh entry created for an operation's first measurement
(performance.py lines 35-41). -/
def OpStats.init : OpStats := ⟨0, 0, ⊤, 0⟩

/-- The `TimingStats` object's state: the per-operation statistics
dict, and at most one active timer (operation name plus start instant). -/
structure TimingStats where
  stats : String → Option OpStats
  current_operation : Option String
  start_time : Option ℚ

/-- Model of `TimingStats.reset` / the freshly constructed object. -/
def TimingStats.reset : TimingStats :=
  ⟨fun _ => Option.none, Option.none, Option.none⟩

/-- Model of `TimingStats.start_timer`: record the operation name and
the current instant, overwriting any active timer. -/
def TimingStats.start_timer (ts : TimingStats) (operation : String) (now : ℚ) : TimingStats :=
  ⟨ts.stats, some operation, some now⟩

/-- Model of `TimingStats.stop_timer` at instant `now`: with no active
timer return `0` and leave the state untouched; otherwise fold the
elapsed time into the operation's entry (creating it at `OpStats.init`
first), clear the active timer, and return the elapsed time. -/
def TimingStats.stop_timer (ts : TimingStats) (now : ℚ) : TimingStats × ℚ :=
  match ts.current_operation, ts.start_time with
  | some op, some t0 =>
    let elapsed : ℚ := now - t0
    let entry := (ts.stats op).getD OpStats.init
    let entry' : OpStats :=
      ⟨entry.count + 1, entry.total_time + elapsed,
       min entry.min_time (elapsed : WithTop ℚ), max entry.max_time elapsed⟩
    (⟨fun o => if o = op then some entry' else ts.stats o, Option.none, Option.none⟩, elapsed)
  | _, _ => (ts, 0)

/-- Model of the `TimingStats.measure` context manager ranging over the
instants `t0` (entry) and `t1` (exit): `start_timer` then `stop_timer`
(the `finally` guarantees the stop). -/
def TimingStats.measure (ts : TimingStats) (operation : String) (t0 t1 : ℚ) :
    TimingStats × ℚ :=
  (ts.start_timer operation t0).stop_timer t1

/-! The document loader (`src/data_ingestion/loaders.py`,
`DocumentLoader.load_directory`). -/

/-- Embedding of `DocumentLoader.load_directory` (loaders.py lines
49-69).  `files` is the sequence of file names `os.walk` yields under
the directory (recursively; dispatch tests the name's suffix, which
agrees between basename and joined path); the four per-format loaders
are parameters.  Each file is dispatched on its extension, files of any
other extension contribute nothing, and results accumulate in walk
order. -/
def DocumentLoader.load_directory
    (load_markdown load_text load_pdf load_html : String → List Document)
    (files : List String) : List Document :=
  files.foldl
    (fun documents file =>
      if pyEndsWith file ".md" then documents ++ load_markdown file
      else if pyEndsWith file ".txt" then documents ++ load_text file
      else if pyEndsWith file ".pdf" then documents ++ load_pdf file
      else if pyEndsWith file ".html" || pyEndsWith file ".htm" then
        documents ++ load_html file
      else documents)
    []

/-! The enhanced retriever (`src/retrieval/retriever.py`,
`EnhancedRetriever.retrieve`). -/

/-- Embedding of `EnhancedRetriever.retrieve` (retriever.py lines
50-59): dispatch on the `retriever_type` string over the three wrapped
retrievers (each abstracted as a query-to-documents function), raising
`ValueError` with a message naming the unsupported type otherwise. -/
def EnhancedRetriever.retrieve
    (base_get compression_get multi_query_get : String → List Document)
    (query : String) (retriever_type : String) :
    Except PyExc (List Document) :=
  if retriever_type = "base" then .ok (base_get query)
  else if retriever_type = "compression" then .ok (compression_get query)
  else if retriever_type = "multi_query" then .ok (multi_query_get query)
  else .error (.valueError ("不支持的检索器类型: " ++ retriever_type))

/-! The ingestion CLI (`scripts/ingest.py`, `main`). -/

/-- Observable actions of one `ingest.py main` run: constructing the
`VectorStore`, adding documents to it, and printing a line. -/
inductive IngestEvent where
  | vectorStoreInit (path : String)
  | addDocuments (docs : List Document)
  | printLine (msg : String)
deriving DecidableEq, Repr

/-- The parsed command-line flags of `ingest.py` with their argparse
defaults (`vector_db_path` already resolved from `VECTORDB_PATH` /
`./vectorstore` by argparse itself). -/
structure IngestArgs where
  docs_dir : Option String
  code_dir : Option String
  doc_type : String
  code_language : String
  chunk_size : Nat
  chunk_overlap : Nat
  vector_db_path : String

/-- Python truthiness of an optional string flag: absent (`None`) and
the empty string are both falsy, as in `if args.docs_dir:`. -/
def optStrTruthy : Option String → Bool
  | Option.none => false
  | some s => !s.isEmpty

/-- Embedding of `ingest.py main` (lines 50-104) as the trace of its
observable actions.  `process_docs` abstracts `process_documents`
(loader → processor → source tagging) as a function of the input
directory, document type, chunk size/overlap and language; its own
progress prints are internal to that abstraction.  The `VectorStore` is
constructed unconditionally before the flags are consulted; documents
are added only when the accumulated list is non-empty, else the usage
note is printed. -/
def ingestMain
    (process_docs : String → String → Nat → Nat → String → List Document)
    (args : IngestArgs) : List IngestEvent :=
  let events : List IngestEvent := [.vectorStoreInit args.vector_db_path]
  let all_docs : List Document := []
  let all_docs := all_docs ++
    (if optStrTruthy args.docs_dir then
      process_docs (args.docs_dir.getD "") args.doc_type args.chunk_size args.chunk_overlap "python"
     else [])
  let all_docs := all_docs ++
    (if optStrTruthy args.code_dir then
      process_docs (args.code_dir.getD "") "code" args.chunk_size args.chunk_overlap args.code_language
     else [])
  if all_docs.isEmpty then
    events ++ [.printLine "没有文档可处理，请指定 --docs_dir 或 --code_dir"]
  else
    events
      ++ [.printLine ("正在将 " ++ toString all_docs.length ++ " 个文档块添加到向量数据库...")]
      ++ [.addDocuments all_docs]
      ++ [.printLine "完成！文档已成功添加到向量数据库"]

/-! The API server (`src/api/server.py`): the `QueryRequest` model and
the `POST /query` handler. -/

/-- The pydantic request model `QueryRequest` (server.py lines 86-89):
fields `question` (required) and `clear_history` (default `False`). -/
structure QueryRequest where
  question : String
  clear_history : Bool
deriving DecidableEq, Repr

/-- Model of pydantic validation of a `/query` JSON body against
`QueryRequest`: `question` must be present as a string,
`clear_history` is an optional boolean defaulting to `False`, and —
pydantic's default extra-field policy — every other key of the body is
ignored. -/
def parseQueryRequest (body : List (String × PyVal)) : Except String QueryRequest :=
  match pyDictGet body "question" with
  | some (.str q) =>
    match pyDictGet body "clear_history" with
    | some (.bool b) => .ok ⟨q, b⟩
    | some _ => .error "clear_history: value is not a valid boolean"
    | Option.none => .ok ⟨q, false⟩
  | some _ => .error "question: value is not a valid string"
  | Option.none => .error "question: field required"

/-- Python whitespace for `str.strip()` (the ASCII fragment). -/
def isPySpace (c : Char) : Bool :=
  c = ' ' || c = '\t' || c = '\n' || c = '\r' || c = '\x0b' || c = '\x0c'

/-- Model of Python `str.strip()`: drop leading and trailing whitespace. -/
def pyStrip (s : String) : String :=
  String.mk (((s.data.dropWhile isPySpace).reverse.dropWhile isPySpace).reverse)

/-- What `rag_model.query` hands back to the handler: the answer text,
the optional `source_documents` list (`result.get` treats a missing key
like `None`), and the extra keys the advanced path adds
(`question`, `retrieval_metadata`) which the handler never copies out. -/
structure RagQueryResult where
  answer : String
  source_documents : Option (List Document)
  question : Option String
  retrieval_metadata : Option PyVal

/-- An HTTP error raised by the handler (`HTTPException`). -/
structure HTTPError where
  status_code : Nat
  detail : String
deriving DecidableEq, Repr

/-- Embedding of the `POST /query` handler (server.py lines 100-146).
`rag_model` is the process-global model slot: `Option.none` models the
uninitialized state, and an initialized model is its `query` method, a
function that either raises (`Except.error` with the message) or
returns a `RagQueryResult`.  The JSON response body is built literally
as in the source: a dict with exactly the keys `answer` and
`source_documents`.  The `clear_history` branch only mutates
conversation memory, which none of these claims observe. -/
def queryHandler (rag_model : Option (String → Except String RagQueryResult))
    (request : QueryRequest) : Except HTTPError PyVal :=
  match rag_model with
  | Option.none => .error ⟨500, "RAG模型未初始化"⟩
  | some modelQuery =>
    if (pyStrip request.question).isEmpty then
      .ok (.dict [("answer", .str "查询问题不能为空"),
                  ("source_documents", .list [])])
    else
      match modelQuery request.question with
      | .error e => .error ⟨500, "查询处理错误: " ++ e⟩
      | .ok result =>
        let source_docs : List PyVal :=
          match result.source_documents with
          | some docs =>
            docs.map (fun doc =>
              PyVal.dict [("page_content", .str doc.page_content),
                          ("metadata", .dict (doc.metadata.map
                            (fun kv => (kv.1, PyVal.str kv.2))))])
          | Option.none => []
        .ok (.dict [("answer", .str result.answer),
                    ("source_documents", .list source_docs)])

/-! Specification-side characterizations and supporting lemmas. -/

/-- Declarative first-seen de-duplication: keep a document exactly when
its `page_content` has not yet occurred (neither in the already-`seen`
contents nor earlier in the list). -/
def firstOccFilter (seen : List String) : List Document → List Document
  | [] => []
  | d :: ds =>
    if d.page_content ∈ seen then firstOccFilter seen ds
    else d :: firstOccFilter (d.page_content :: seen) ds

/-- The extension dispatch table of `load_directory`, per file: which
loader (if any) serves a file name, as the claim words it. -/
def fileDispatch (load_markdown load_text load_pdf load_html : String → List Document)
    (file : String) : List Document :=
  if pyEndsWith file ".md" then load_markdown file
  else if pyEndsWith file ".txt" then load_text file
  else if pyEndsWith file ".pdf" then load_pdf file
  else if pyEndsWith file ".html" || pyEndsWith file ".htm" then load_html file
  else []

/-- A file name carrying one of the five supported extensions. -/
def extSupported (file : String) : Bool :=
  pyEndsWith file ".md" || pyEndsWith file ".txt" || pyEndsWith file ".pdf" ||
  pyEndsWith file ".html" || pyEndsWith file ".htm"

/-- A concrete retriever for the witnesses: one document per query,
tagged with the query text and the requested `k`. -/
def retrW : String → Nat → List Document :=
  fun q n => [⟨q ++ "#" ++ toString n, []⟩]

/-- A concrete rewriter for the witnesses. -/
def rwW : String → String := fun s => "R" ++ s

/-- A concrete two-sub-question decomposition for the C4 witness. -/
def decW : String → List String := fun _ => ["a", "b"]

theorem firstOccFilter_nil (seen : List String) : firstOccFilter seen [] = [] := rfl

theorem dedup_foldl_eq (l : List Document) :
    ∀ (seen : List String) (acc : List Document),
      (l.foldl
        (fun (st : List String × List Document) doc =>
          if doc.page_content ∈ st.1 then st
          else (doc.page_content :: st.1, st.2 ++ [doc]))
        (seen, acc)).2 = acc ++ firstOccFilter seen l := by
  induction l with
  | nil => intro seen acc; simp [firstOccFilter]
  | cons d ds ih =>
    intro seen acc
    by_cases h : d.page_content ∈ seen
    · simp only [List.foldl_cons, if_pos h, firstOccFilter, ih]
    · simp only [List.foldl_cons, if_neg h, firstOccFilter, ih]
      simp

/-- The source's fold-with-seen-set loop computes exactly the
declarative first-seen filter. -/
theorem dedupByContent_eq (l : List Document) :
    dedupByContent l = firstOccFilter [] l := by
  simpa using dedup_foldl_eq l [] []

theorem firstOccFilter_notMem_seen (l : List Document) :
    ∀ (seen : List String) (c : String), c ∈ seen →
      c ∉ (firstOccFilter seen l).map (·.page_content) := by
  induction l with
  | nil => intro seen c _ h; simp [firstOccFilter] at h
  | cons d ds ih =>
    intro seen c hc
    by_cases h : d.page_content ∈ seen
    · simpa [firstOccFilter, h] using ih seen c hc
    · simp only [firstOccFilter, if_neg h, List.map_cons, List.mem_cons]
      rintro (rfl | hmem)
      · exact h hc
      · exact ih (d.page_content :: seen) c (List.mem_cons_of_mem _ hc) hmem

/-- The first-seen filter's output has pairwise-distinct contents. -/
theorem firstOccFilter_nodup (l : List Document) :
    ∀ seen : List String, ((firstOccFilter seen l).map (·.page_content)).Nodup := by
  induction l with
  | nil => intro seen; simp [firstOccFilter]
  | cons d ds ih =>
    intro seen
    by_cases h : d.page_content ∈ seen
    · simpa [firstOccFilter, h] using ih seen
    · simp only [firstOccFilter, if_neg h, List.map_cons, List.nodup_cons]
      exact ⟨firstOccFilter_notMem_seen ds (d.page_content :: seen) d.page_content
               (List.mem_cons_self _ _),
             ih (d.page_content :: seen)⟩

/-- The first-seen filter is a sublist of its input (order preserved). -/
theorem firstOccFilter_sublist (l : List Document) :
    ∀ seen : List String, (firstOccFilter seen l).Sublist l := by
  induction l with
  | nil => intro seen; simp [firstOccFilter]
  | cons d ds ih =>
    intro seen
    by_cases h : d.page_content ∈ seen
    · simpa [firstOccFilter, h] using (ih seen).trans (List.sublist_cons_self d ds)
    · simpa [firstOccFilter, h] using (ih (d.page_content :: seen)).cons₂ d

/-- The per-sub-question retrieval loop of the decomposition strategy
succeeds whenever the divisor is non-zero, accumulating the
concatenation of the per-sub-question retrievals. -/
theorem decomp_foldlM_ok (retr : String → Nat → List Document)
    (rw : String → String) (k n : Nat) (hn : n ≠ 0) (l : List String) :
    ∀ acc : List Document,
      (l.foldlM
        (fun (acc : List Document) subq => do
          let rewritten_subq := rw subq
          let kq ← pyFloorDiv k n
          pure (acc ++ retr rewritten_subq (max 2 kq)))
        acc : Except PyExc (List Document))
      = .ok (acc ++ l.flatMap (fun sq => retr (rw sq) (max 2 (k / n)))) := by
  induction l with
  | nil => intro acc; simp; rfl
  | cons s l ih =>
    intro acc
    rw [List.foldlM_cons]
    have hstep : (do
        let rewritten_subq := rw s
        let kq ← pyFloorDiv k n
        pure (acc ++ retr rewritten_subq (max 2 kq)) : Except PyExc (List Document))
        = Except.ok (acc ++ retr (rw s) (max 2 (k / n))) := by
      simp [pyFloorDiv, hn]
    rw [hstep]
    show (l.foldlM _ (acc ++ retr (rw s) (max 2 (k / n))) : Except PyExc (List Document)) = _
    rw [ih]
    simp

theorem except_ok_bind {α β : Type} (a : α) (f : α → Except PyExc β) :
    (Except.ok a >>= f : Except PyExc β) = f a := rfl

/-- With a non-empty sub-question list, the decomposition strategy
returns the first-seen-filtered concatenation of the per-sub-question
retrievals, truncated to `k`, with its metadata. -/
theorem decomp_retrieve_eq
    (retriever : String → Nat → List Document) (rewrite_query : String → String)
    (decompose_query : String → List String) (query : String) (k : Nat)
    (hne : decompose_query query ≠ []) :
    QueryDecompositionStrategy.retrieve retriever rewrite_query decompose_query query k
      = .ok ((firstOccFilter []
          ((decompose_query query).flatMap
            (fun sq => retriever (rewrite_query sq)
              (max 2 (k / (decompose_query query).length))))).take k,
        ⟨"decomposition", k, query, decompose_query query⟩) := by
  have hn : (decompose_query query).length ≠ 0 := by
    simpa [List.length_eq_zero] using hne
  have hfold := decomp_foldlM_ok retriever rewrite_query k
    (decompose_query query).length hn (decompose_query query) []
  simp only [QueryDecompositionStrategy.retrieve]
  rw [hfold, except_ok_bind]
  simp only [List.nil_append, dedupByContent_eq]
  rfl

/-- With an empty sub-question list, the per-sub-question loop never
runs (so neither does its floor division) and the decomposition
strategy succeeds with no documents. -/
theorem decomp_retrieve_empty
    (retriever : String → Nat → List Document) (rewrite_query : String → String)
    (decompose_query : String → List String) (query : String) (k : Nat)
    (he : decompose_query query = []) :
    QueryDecompositionStrategy.retrieve retriever rewrite_query decompose_query query k
      = .ok ([], ⟨"decomposition", k, query, []⟩) := by
  simp only [QueryDecompositionStrategy.retrieve, he, List.foldlM_nil]
  simp [pure_bind, dedupByContent, List.take_nil]
  rfl

/-! Claim C4. -/

/-- C4: for every query and non-empty sub-question list of length `n`
produced by decomposition, the decomposition strategy retrieves
`max 2 (k / n)` documents per rewritten sub-question, concatenates the
per-sub-question results, de-duplicates by exact `page_content`
equality keeping the first occurrence in order, and truncates to at
most `k` documents. -/
theorem claim4_decomposition_dedup
    (retriever : String → Nat → List Document) (rewrite_query : String → String)
    (decompose_query : String → List String) (query : String) (k : Nat)
    (hne : decompose_query query ≠ []) :
    ∃ pooled documents : List Document,
      pooled = (decompose_query query).flatMap
        (fun sq => retriever (rewrite_query sq)
          (max 2 (k / (decompose_query query).length))) ∧
      documents = (firstOccFilter [] pooled).take k ∧
      QueryDecompositionStrategy.retrieve retriever rewrite_query decompose_query query k
        = .ok (documents, ⟨"decomposition", k, query, decompose_query query⟩) ∧
      (documents.map (·.page_content)).Nodup ∧
      documents.length ≤ k ∧
      documents.Sublist pooled := by
  refine ⟨_, _, rfl, rfl, decomp_retrieve_eq _ _ _ _ _ hne, ?_, ?_, ?_⟩
  · rw [List.map_take]
    exact (List.take_sublist _ _).nodup (firstOccFilter_nodup _ _)
  · exact List.length_take_le _ _
  · exact (List.take_sublist _ _).trans (firstOccFilter_sublist _ _)

/-- Witness for C4 at a concrete decomposition into two sub-questions
with `k = 5`. -/
theorem claim4_decomposition_dedup_witness :
    decW "q" ≠ [] ∧
    (∃ pooled documents : List Document,
      pooled = (decW "q").flatMap
        (fun sq => retrW (rwW sq) (max 2 (5 / (decW "q").length))) ∧
      documents = (firstOccFilter [] pooled).take 5 ∧
      QueryDecompositionStrategy.retrieve retrW rwW decW "q" 5
        = .ok (documents, ⟨"decomposition", 5, "q", decW "q"⟩) ∧
      (documents.map (·.page_content)).Nodup ∧
      documents.length ≤ 5 ∧
      documents.Sublist pooled) :=
  ⟨by decide, claim4_decomposition_dedup retrW rwW decW "q" 5 (by decide)⟩

/-! Claim C9. -/

/-- C9 counterexample: with an empty sub-question list the
decomposition strategy does not raise `ZeroDivisionError` — the
division sits inside the per-sub-question loop, which runs zero times —
and instead returns an empty document list successfully. -/
theorem claim9_counterexample :
    QueryDecompositionStrategy.retrieve retrW rwW (fun _ => []) "q" 5
      = .ok ([], ⟨"decomposition", 5, "q", []⟩) ∧
    QueryDecompositionStrategy.retrieve retrW rwW (fun _ => []) "q" 5
      ≠ .error .zeroDivisionError :=
  ⟨rfl, fun h => by
    rw [show QueryDecompositionStrategy.retrieve retrW rwW (fun _ => []) "q" 5
          = .ok ([], ⟨"decomposition", 5, "q", []⟩) from rfl] at h
    exact Except.noConfusion h⟩

/-- C9 (amended): the decomposition retrieval operations are total on
every sub-question list.  An empty list makes the per-sub-question loop
(the only place `k // len(subquestions)` is evaluated) run zero times,
so both `QueryDecompositionStrategy.retrieve` and the decomposition
branch of `adaptive_retrieval` return an empty document list
successfully rather than raising a division-by-zero error. -/
theorem claim9_amended :
    (∀ (retriever : String → Nat → List Document) (rewrite_query : String → String)
        (decompose_query : String → List String) (query : String) (k : Nat),
      ∃ out, QueryDecompositionStrategy.retrieve retriever rewrite_query
        decompose_query query k = .ok out) ∧
    (∀ (retriever : String → Nat → List Document) (rewrite_query : String → String)
        (decompose_query : String → List String) (query : String) (k : Nat),
      decompose_query query = [] →
      QueryDecompositionStrategy.retrieve retriever rewrite_query decompose_query query k
        = .ok ([], ⟨"decomposition", k, query, []⟩)) ∧
    (∀ (retr : String → Nat → List Document) (analysis_chain_run : String → String)
        (query_rewrite : String → String) (query_decomposition : String → List String)
        (query : String) (k : Nat) (av : PyVal),
      parseQueryAnalysis (analysis_chain_run query) = .ok av →
      pyGetItem av "recommended_strategy" = .ok (.str "decomposition") →
      pyGetItem av "complexity" = .ok (.str "medium") →
      query_decomposition query = [] →
      adaptive_retrieval (some retr) analysis_chain_run query_rewrite
        query_decomposition query k
        = .ok ([], ⟨av, "decomposition", some [], Option.none⟩)) := by
  refine ⟨?_, ?_, ?_⟩
  · intro retriever rewrite_query decompose_query query k
    by_cases hd : decompose_query query = []
    · exact ⟨_, decomp_retrieve_empty _ _ _ _ _ hd⟩
    · exact ⟨_, decomp_retrieve_eq _ _ _ _ _ hd⟩
  · intro retriever rewrite_query decompose_query query k hd
    exact decomp_retrieve_empty _ _ _ _ _ hd
  · intro retr analysis_chain_run query_rewrite query_decomposition query k av
      hav hrs hcx hdec
    simp only [adaptive_retrieval, hav, hrs, hcx, except_ok_bind]
    have h1 : pyEqStr (.str "decomposition") "basic" = false := by decide
    have h2 : pyEqStr (.str "medium") "simple" = false := by decide
    have h3 : pyEqStr (.str "decomposition") "decomposition" = true := by decide
    simp only [h1, h2, h3, Bool.false_eq_true, if_false, Bool.true_or, if_true, hdec,
      List.foldlM_nil]
    simp [pure_bind, dedupByContent, List.take_nil]
    rfl

/-- Helper for C1: when the LLM output is a fenced ```json block whose
sliced body fails `json.loads`, the analysis parse yields the code's
default analysis (which carries no `explanation` field). -/
theorem parseQueryAnalysis_fenced_fail (s msg : String)
    (hfence : pyStartsWith s "```json" = true)
    (hjson : jsonLoads (pySlice7ToNeg3 s) = .error (.jsonDecodeError msg)) :
    parseQueryAnalysis s = .ok defaultQueryAnalysis := by
  simp only [parseQueryAnalysis, hfence, if_true, hjson]

/-- Helper for C1: when the LLM output is not a fenced block and fails
Python-literal parsing, the failure (not a `JSONDecodeError`) escapes
the `except` clause. -/
theorem parseQueryAnalysis_literal_fail (s msg : String)
    (hnf : pyStartsWith s "```json" = false)
    (hlit : literalEval s = .error (.valueError msg)) :
    parseQueryAnalysis s = .error (.valueError msg) := by
  simp only [parseQueryAnalysis, hnf, Bool.false_eq_true, if_false, hlit]

/-- Witness for C9's amended theorem: totality at the concrete witness
retriever, the empty decomposition at `k = 5`, and the adaptive
decomposition branch fed by a literal analysis string. -/
theorem claim9_amended_witness :
    (∃ out, QueryDecompositionStrategy.retrieve retrW rwW (fun _ => ["a"]) "q" 5
      = .ok out) ∧
    QueryDecompositionStrategy.retrieve retrW rwW (fun _ => []) "q" 7
      = .ok ([], ⟨"decomposition", 7, "q", []⟩) ∧
    adaptive_retrieval (some retrW)
      (fun _ => "\x7b'recommended_strategy': 'decomposition', 'complexity': 'medium'\x7d")
      rwW (fun _ => []) "q" 5
      = .ok ([], ⟨.dict [("recommended_strategy", .str "decomposition"),
                         ("complexity", .str "medium")],
                  "decomposition", some [], Option.none⟩) :=
  ⟨claim9_amended.1 retrW rwW (fun _ => ["a"]) "q" 5,
   claim9_amended.2.1 retrW rwW (fun _ => []) "q" 7 rfl,
   claim9_amended.2.2 retrW
     (fun _ => "\x7b'recommended_strategy': 'decomposition', 'complexity': 'medium'\x7d")
     rwW (fun _ => []) "q" 5 _ (by rfl) (by rfl) (by rfl) rfl⟩

/-! Claim C1. -/

/-- C1 counterexample: at a fenced but malformed ```json output the
fallback analysis `adaptive_retrieval` uses is `defaultQueryAnalysis`,
which has no `explanation` key at all — unlike the claimed default
`specDefaultAnalysis` — and at a plain unparseable output (neither
fenced JSON nor a Python literal) the parse failure is a `ValueError`,
which the handler (catching only `json.JSONDecodeError`) lets escape to
the caller. -/
theorem claim1_counterexample :
    adaptive_retrieval (some retrW) (fun _ => "```json\n\x7b\"oops\"\n```")
        rwW (fun _ => []) "q" 5
      = .ok ([⟨"q#5", []⟩], ⟨defaultQueryAnalysis, "basic", Option.none, Option.none⟩) ∧
    pyGetItem defaultQueryAnalysis "explanation" = .error (.keyError "explanation") ∧
    pyGetItem specDefaultAnalysis "explanation"
      = .ok (.str "parsing failed, using default strategy") ∧
    adaptive_retrieval (some retrW) (fun _ => "I suggest the basic strategy")
        rwW (fun _ => []) "q" 5
      = .error (.valueError "malformed node or string") :=
  ⟨by rfl, by rfl, by rfl, by rfl⟩

/-- C1 (amended): when the LLM output is a fenced ```json block whose
body fails JSON parsing, `adaptive_retrieval` falls back to the fixed
default analysis `{complexity: medium, requires_code_examples: false,
is_technical: true, recommended_strategy: basic}` — with no
`explanation` field — and executes the basic strategy without raising;
when the output is not a fenced block and fails Python-literal parsing,
the parse error propagates to the caller. -/
theorem claim1_amended :
    (∀ (retr : String → Nat → List Document)
        (analysis_chain_run query_rewrite : String → String)
        (query_decomposition : String → List String) (query : String) (k : Nat)
        (msg : String),
      pyStartsWith (analysis_chain_run query) "```json" = true →
      jsonLoads (pySlice7ToNeg3 (analysis_chain_run query))
        = .error (.jsonDecodeError msg) →
      adaptive_retrieval (some retr) analysis_chain_run query_rewrite
          query_decomposition query k
        = .ok (retr query k,
               ⟨defaultQueryAnalysis, "basic", Option.none, Option.none⟩)) ∧
    (∀ (retr : String → Nat → List Document)
        (analysis_chain_run query_rewrite : String → String)
        (query_decomposition : String → List String) (query : String) (k : Nat)
        (msg : String),
      pyStartsWith (analysis_chain_run query) "```json" = false →
      literalEval (analysis_chain_run query) = .error (.valueError msg) →
      adaptive_retrieval (some retr) analysis_chain_run query_rewrite
          query_decomposition query k
        = .error (.valueError msg)) := by
  constructor
  · intro retr analysis_chain_run query_rewrite query_decomposition query k msg
      hfence hjson
    have hparse := parseQueryAnalysis_fenced_fail _ _ hfence hjson
    simp only [adaptive_retrieval, hparse, except_ok_bind]
    rfl
  · intro retr analysis_chain_run query_rewrite query_decomposition query k msg
      hnf hlit
    have hparse := parseQueryAnalysis_literal_fail _ _ hnf hlit
    simp only [adaptive_retrieval, hparse]
    rfl

/-- Witness for C1's amended theorem at the two concrete LLM outputs
used in the counterexample. -/
theorem claim1_amended_witness :
    adaptive_retrieval (some retrW) (fun _ => "```json\n\x7b\"oops\"\n```")
        rwW (fun _ => []) "q2" 3
      = .ok (retrW "q2" 3,
             ⟨defaultQueryAnalysis, "basic", Option.none, Option.none⟩) ∧
    adaptive_retrieval (some retrW) (fun _ => "basic sounds right")
        rwW (fun _ => []) "q2" 3
      = .error (.valueError "malformed node or string") :=
  ⟨claim1_amended.1 retrW (fun _ => "```json\n\x7b\"oops\"\n```") rwW (fun _ => [])
      "q2" 3 "Expecting value" (by rfl) (by rfl),
   claim1_amended.2 retrW (fun _ => "basic sounds right") rwW (fun _ => [])
      "q2" 3 "malformed node or string" (by rfl) (by rfl)⟩

/-! Claim C2. -/

/-- C2 counterexample: an analysis recommending the unregistered
strategy `not_a_real_strategy` with `medium` complexity sends
`adaptive_retrieval` into the hybrid branch — the query is rewritten
and retrieved, `strategy_used` is `"hybrid"` (not `"basic"`), and the
returned analysis carries no explanation note at all. -/
theorem claim2_counterexample :
    adaptive_retrieval (some retrW)
        (fun _ => "\x7b'complexity': 'medium', 'requires_code_examples': True, 'is_technical': True, 'recommended_strategy': 'not_a_real_strategy'\x7d")
        rwW (fun _ => []) "q" 5
      = .ok ([⟨"Rq#5", []⟩],
             ⟨.dict [("complexity", .str "medium"),
                     ("requires_code_examples", .bool true),
                     ("is_technical", .bool true),
                     ("recommended_strategy", .str "not_a_real_strategy")],
              "hybrid", Option.none, some "Rq"⟩) ∧
    ("hybrid" : String) ≠ "basic" ∧
    pyGetItem (.dict [("complexity", .str "medium"),
                      ("requires_code_examples", .bool true),
                      ("is_technical", .bool true),
                      ("recommended_strategy", .str "not_a_real_strategy")])
        "explanation"
      = .error (.keyError "explanation") :=
  ⟨by rfl, by decide, by rfl⟩

/-- C2 (amended): when the parsed analysis recommends a strategy that
is neither `basic` nor `decomposition` and reports a complexity that is
neither `simple` nor `complex`, `adaptive_retrieval` executes the
hybrid branch — rewrite the whole query and retrieve with `k` — marks
`strategy_used` as `"hybrid"`, records the rewritten query, and passes
the analysis through without appending any fallback note. -/
theorem claim2_amended
    (retr : String → Nat → List Document)
    (analysis_chain_run query_rewrite : String → String)
    (query_decomposition : String → List String) (query : String) (k : Nat)
    (av rv cv : PyVal)
    (hp : parseQueryAnalysis (analysis_chain_run query) = .ok av)
    (hrs : pyGetItem av "recommended_strategy" = .ok rv)
    (h1 : pyEqStr rv "basic" = false)
    (h2 : pyEqStr rv "decomposition" = false)
    (hcx : pyGetItem av "complexity" = .ok cv)
    (h3 : pyEqStr cv "simple" = false)
    (h4 : pyEqStr cv "complex" = false) :
    adaptive_retrieval (some retr) analysis_chain_run query_rewrite
        query_decomposition query k
      = .ok (retr (query_rewrite query) k,
             ⟨av, "hybrid", Option.none, some (query_rewrite query)⟩) := by
  simp only [adaptive_retrieval, hp, except_ok_bind, hrs, h1, hcx, h2, h3, h4,
    Bool.false_eq_true, if_false, Bool.or_self, Bool.false_or]
  rfl

/-- Witness for C2's amended theorem at the counterexample's concrete
analysis output. -/
theorem claim2_amended_witness :
    adaptive_retrieval (some retrW)
        (fun _ => "\x7b'complexity': 'medium', 'requires_code_examples': True, 'is_technical': True, 'recommended_strategy': 'not_a_real_strategy'\x7d")
        rwW (fun _ => []) "q" 5
      = .ok (retrW (rwW "q") 5,
             ⟨.dict [("complexity", .str "medium"),
                     ("requires_code_examples", .bool true),
                     ("is_technical", .bool true),
                     ("recommended_strategy", .str "not_a_real_strategy")],
              "hybrid", Option.none, some (rwW "q")⟩) :=
  claim2_amended retrW
    (fun _ => "\x7b'complexity': 'medium', 'requires_code_examples': True, 'is_technical': True, 'recommended_strategy': 'not_a_real_strategy'\x7d")
    rwW (fun _ => []) "q" 5 _ _ _
    (by rfl) (by rfl) (by rfl) (by rfl) (by rfl) (by rfl) (by rfl)

/-! Claim C3. -/

/-- C3: with the model initialized, a `/query` request whose question
trims to the empty string gets the canned
`{answer: "查询问题不能为空", source_documents: []}` response; the
result is the same for every possible model query function, so neither
retrieval nor the LLM can influence (or be invoked for) it. -/
theorem claim3_empty_question
    (modelQuery : String → Except String RagQueryResult) (request : QueryRequest)
    (h : pyStrip request.question = "") :
    queryHandler (some modelQuery) request
      = .ok (.dict [("answer", .str "查询问题不能为空"),
                    ("source_documents", .list [])]) := by
  simp only [queryHandler, h]
  rfl

/-- Witness for C3 at the whitespace-only question `"   "`. -/
theorem claim3_empty_question_witness :
    pyStrip "   " = "" ∧
    queryHandler
        (some (fun _ => .ok ⟨"ans", Option.none, Option.none, Option.none⟩))
        ⟨"   ", false⟩
      = .ok (.dict [("answer", .str "查询问题不能为空"),
                    ("source_documents", .list [])]) :=
  ⟨by rfl, claim3_empty_question _ _ (by rfl)⟩

/-! Claim C10. -/

theorem pyDictGet_append_ne (body : List (String × PyVal)) (k' : String)
    (v : PyVal) (key : String) (h : key ≠ k') :
    pyDictGet (body ++ [(k', v)]) key = pyDictGet body key := by
  simp [pyDictGet, Ne.symm h]

theorem pyDictGet_cons_ne (body : List (String × PyVal)) (k' : String)
    (v : PyVal) (key : String) (h : key ≠ k') :
    pyDictGet ((k', v) :: body) key = pyDictGet body key := by
  simp [pyDictGet, Ne.symm h]

/-- C10: every successful `/query` response body is a dict with exactly
the keys `answer` and `source_documents` (never `retrieval_metadata` or
`performance`, whatever the model returned), and request validation
ignores an `advanced_rag` field wherever it appears in the body. -/
theorem claim10_response_shape :
    (∀ (rag_model : Option (String → Except String RagQueryResult))
        (request : QueryRequest) (resp : PyVal),
      queryHandler rag_model request = .ok resp →
      ∃ kvs, resp = .dict kvs ∧ kvs.map Prod.fst = ["answer", "source_documents"]) ∧
    (∀ (body : List (String × PyVal)) (v : PyVal),
      parseQueryRequest (body ++ [("advanced_rag", v)]) = parseQueryRequest body ∧
      parseQueryRequest (("advanced_rag", v) :: body) = parseQueryRequest body) := by
  constructor
  · intro rag_model request resp h
    match rag_model with
    | Option.none => simp [queryHandler] at h
    | some modelQuery =>
      simp only [queryHandler] at h
      by_cases hq : (pyStrip request.question).isEmpty = true
      · rw [if_pos hq] at h
        exact ⟨_, (Except.ok.inj h).symm, rfl⟩
      · rw [if_neg hq] at h
        cases hE : modelQuery request.question with
        | error e => rw [hE] at h; exact absurd h (by simp)
        | ok result => rw [hE] at h; exact ⟨_, (Except.ok.inj h).symm, rfl⟩
  · intro body v
    constructor
    · simp only [parseQueryRequest,
        pyDictGet_append_ne body "advanced_rag" v "question" (by decide),
        pyDictGet_append_ne body "advanced_rag" v "clear_history" (by decide)]
    · simp only [parseQueryRequest,
        pyDictGet_cons_ne body "advanced_rag" v "question" (by decide),
        pyDictGet_cons_ne body "advanced_rag" v "clear_history" (by decide)]

/-- Witness for C10 at a concrete request/response and a concrete body
with an `advanced_rag` field. -/
theorem claim10_response_shape_witness :
    (∃ kvs, PyVal.dict [("answer", PyVal.str "A"), ("source_documents", PyVal.list [])]
        = .dict kvs ∧ kvs.map Prod.fst = ["answer", "source_documents"]) ∧
    parseQueryRequest
        ([("question", PyVal.str "hi")] ++ [("advanced_rag", PyVal.bool true)])
      = parseQueryRequest [("question", PyVal.str "hi")] :=
  ⟨claim10_response_shape.1
      (some (fun _ => .ok ⟨"A", Option.none, Option.none, Option.none⟩))
      ⟨"hi", false⟩ _ (by rfl),
   (claim10_response_shape.2 [("question", PyVal.str "hi")] (PyVal.bool true)).1⟩

/-! Claim C5. -/

/-- C5 counterexample: with neither `--docs_dir` nor `--code_dir`
supplied, the run does print the usage note and adds nothing — but the
`VectorStore` is still instantiated (it is constructed before the flags
are examined), so "only otherwise does it instantiate the Vector
Store" fails. -/
theorem claim5_counterexample :
    ingestMain (fun _ _ _ _ _ => [])
        ⟨Option.none, Option.none, "markdown", "python", 1000, 200, "./vectorstore"⟩
      = [.vectorStoreInit "./vectorstore",
         .printLine "没有文档可处理，请指定 --docs_dir 或 --code_dir"] ∧
    IngestEvent.vectorStoreInit "./vectorstore"
      ∈ ingestMain (fun _ _ _ _ _ => [])
          ⟨Option.none, Option.none, "markdown", "python", 1000, 200, "./vectorstore"⟩ :=
  ⟨by rfl, by decide⟩

/-- C5 (amended): with neither flag supplied (truthy), the CLI prints
the usage note and finishes without adding anything to the index — but
the Vector Store is instantiated unconditionally at `vector_db_path`
before the flags are examined, on every run. -/
theorem claim5_amended :
    (∀ (process_docs : String → String → Nat → Nat → String → List Document)
        (args : IngestArgs),
      optStrTruthy args.docs_dir = false → optStrTruthy args.code_dir = false →
      ingestMain process_docs args
        = [.vectorStoreInit args.vector_db_path,
           .printLine "没有文档可处理，请指定 --docs_dir 或 --code_dir"] ∧
      ∀ docs, IngestEvent.addDocuments docs ∉ ingestMain process_docs args) ∧
    (∀ (process_docs : String → String → Nat → Nat → String → List Document)
        (args : IngestArgs),
      (ingestMain process_docs args).head?
        = some (.vectorStoreInit args.vector_db_path)) := by
  constructor
  · intro process_docs args h1 h2
    have htr : ingestMain process_docs args
        = [.vectorStoreInit args.vector_db_path,
           .printLine "没有文档可处理，请指定 --docs_dir 或 --code_dir"] := by
      simp [ingestMain, h1, h2]
    refine ⟨htr, ?_⟩
    intro docs
    rw [htr]
    simp
  · intro process_docs args
    by_cases hcase :
        (([] ++
          (if optStrTruthy args.docs_dir then
            process_docs (args.docs_dir.getD "") args.doc_type args.chunk_size
              args.chunk_overlap "python"
           else []) ++
          (if optStrTruthy args.code_dir then
            process_docs (args.code_dir.getD "") "code" args.chunk_size
              args.chunk_overlap args.code_language
           else [])) : List Document).isEmpty
    · simp only [ingestMain, hcase, if_true]
      rfl
    · simp only [ingestMain, hcase, if_false]
      rfl

/-- Witness for C5's amended theorem at the default argument record. -/
theorem claim5_amended_witness :
    (ingestMain (fun _ _ _ _ _ => [])
        ⟨Option.none, Option.none, "markdown", "python", 1000, 200, "./vs"⟩
      = [.vectorStoreInit "./vs",
         .printLine "没有文档可处理，请指定 --docs_dir 或 --code_dir"] ∧
      ∀ docs, IngestEvent.addDocuments docs
        ∉ ingestMain (fun _ _ _ _ _ => [])
            ⟨Option.none, Option.none, "markdown", "python", 1000, 200, "./vs"⟩) ∧
    (ingestMain (fun _ _ _ _ _ => [⟨"c", []⟩])
        ⟨some "d", Option.none, "markdown", "python", 1000, 200, "./vs"⟩).head?
      = some (.vectorStoreInit "./vs") :=
  ⟨claim5_amended.1 (fun _ _ _ _ _ => [])
      ⟨Option.none, Option.none, "markdown", "python", 1000, 200, "./vs"⟩ rfl rfl,
   claim5_amended.2 (fun _ _ _ _ _ => [⟨"c", []⟩])
      ⟨some "d", Option.none, "markdown", "python", 1000, 200, "./vs"⟩⟩

/-! Claim C6. -/

/-- C6: a completed measurement of operation `op` (via `measure`, i.e.
`start_timer` then `stop_timer`) returns the elapsed time and updates
exactly that operation's entry: `count` goes up by one, `total_time`
by the elapsed time, `min_time` becomes the minimum and `max_time` the
maximum of old and elapsed — so `min_time` drops exactly when the new
measurement is shorter and `max_time` rises exactly when it is longer —
while every other operation's entry is untouched; and `stop_timer`
with no active timer returns `0` and leaves the state unchanged. -/
theorem claim6_timing_stats :
    (∀ (ts : TimingStats) (op : String) (t0 t1 : ℚ),
      (ts.measure op t0 t1).2 = t1 - t0 ∧
      (ts.measure op t0 t1).1.stats op
        = some ⟨((ts.stats op).getD OpStats.init).count + 1,
                ((ts.stats op).getD OpStats.init).total_time + (t1 - t0),
                min ((ts.stats op).getD OpStats.init).min_time ((t1 - t0 : ℚ) : WithTop ℚ),
                max ((ts.stats op).getD OpStats.init).max_time (t1 - t0)⟩ ∧
      (∀ o, o ≠ op → (ts.measure op t0 t1).1.stats o = ts.stats o) ∧
      (∀ entry, (ts.measure op t0 t1).1.stats op = some entry →
        (entry.min_time < ((ts.stats op).getD OpStats.init).min_time ↔
          ((t1 - t0 : ℚ) : WithTop ℚ) < ((ts.stats op).getD OpStats.init).min_time) ∧
        (((ts.stats op).getD OpStats.init).max_time < entry.max_time ↔
          ((ts.stats op).getD OpStats.init).max_time < t1 - t0))) ∧
    (∀ (ts : TimingStats) (now : ℚ),
      ts.current_operation = Option.none ∨ ts.start_time = Option.none →
      ts.stop_timer now = (ts, 0)) := by
  constructor
  · intro ts op t0 t1
    have hm : ts.measure op t0 t1
        = (⟨fun o => if o = op then
              some ⟨((ts.stats op).getD OpStats.init).count + 1,
                    ((ts.stats op).getD OpStats.init).total_time + (t1 - t0),
                    min ((ts.stats op).getD OpStats.init).min_time ((t1 - t0 : ℚ) : WithTop ℚ),
                    max ((ts.stats op).getD OpStats.init).max_time (t1 - t0)⟩
            else ts.stats o, Option.none, Option.none⟩, t1 - t0) := rfl
    refine ⟨by rw [hm], by rw [hm]; simp, ?_, ?_⟩
    · intro o ho
      rw [hm]
      simp [ho]
    · intro entry he
      rw [hm] at he
      simp only [eq_self_iff_true, if_true, Option.some.injEq] at he
      subst he
      constructor
      · rw [min_lt_iff]
        simp [lt_irrefl]
      · rw [lt_max_iff]
        simp [lt_irrefl]
  · rintro ⟨stats, cur, st⟩ now h
    cases cur with
    | none => rfl
    | some op =>
      cases st with
      | none => rfl
      | some t0 => rcases h with h | h <;> simp at h

/-- Witness for C6: one measurement of 2 time units on a fresh
statistics object, and a `stop_timer` with no active timer. -/
theorem claim6_timing_stats_witness :
    (TimingStats.reset.measure "op" 0 2).1.stats "op" = some ⟨1, 2, (2 : ℚ), 2⟩ ∧
    TimingStats.reset.stop_timer 5 = (TimingStats.reset, 0) := by
  refine ⟨?_, claim6_timing_stats.2 TimingStats.reset 5 (Or.inl rfl)⟩
  have h2 := (claim6_timing_stats.1 TimingStats.reset "op" 0 2).2.1
  rw [h2]
  norm_num [TimingStats.reset, OpStats.init]

/-! Claim C7. -/

theorem load_directory_eq
    (lm lt lp lh : String → List Document) (files : List String) :
    DocumentLoader.load_directory lm lt lp lh files
      = files.flatMap (fileDispatch lm lt lp lh) := by
  suffices h : ∀ (fs : List String) (acc : List Document),
      fs.foldl (fun documents file =>
        if pyEndsWith file ".md" then documents ++ lm file
        else if pyEndsWith file ".txt" then documents ++ lt file
        else if pyEndsWith file ".pdf" then documents ++ lp file
        else if pyEndsWith file ".html" || pyEndsWith file ".htm" then
          documents ++ lh file
        else documents) acc
      = acc ++ fs.flatMap (fileDispatch lm lt lp lh) by
    simpa [DocumentLoader.load_directory] using h files []
  intro fs
  induction fs with
  | nil => intro acc; simp
  | cons f fs ih =>
    intro acc
    rw [List.foldl_cons, ih]
    have hstep : (if pyEndsWith f ".md" then acc ++ lm f
        else if pyEndsWith f ".txt" then acc ++ lt f
        else if pyEndsWith f ".pdf" then acc ++ lp f
        else if pyEndsWith f ".html" || pyEndsWith f ".htm" then acc ++ lh f
        else acc) = acc ++ fileDispatch lm lt lp lh f := by
      simp only [fileDispatch]
      split_ifs <;> simp
    rw [hstep]
    simp

/-- C7: directory loading is the concatenation, in walk order, of the
per-file loads under the extension dispatch (`.md`, `.txt`, `.pdf`,
`.html`/`.htm`); a file with an unsupported extension is dispatched to
no loader and removing or inserting it anywhere leaves the result
unchanged (silently skipped, no error). -/
theorem claim7_load_directory :
    (∀ (lm lt lp lh : String → List Document) (files : List String),
      DocumentLoader.load_directory lm lt lp lh files
        = files.flatMap (fileDispatch lm lt lp lh)) ∧
    (∀ (lm lt lp lh : String → List Document) (file : String),
      extSupported file = false → fileDispatch lm lt lp lh file = []) ∧
    (∀ (lm lt lp lh : String → List Document) (file : String)
        (pre post : List String),
      extSupported file = false →
      DocumentLoader.load_directory lm lt lp lh (pre ++ file :: post)
        = DocumentLoader.load_directory lm lt lp lh (pre ++ post)) := by
  have hdisp : ∀ (lm lt lp lh : String → List Document) (file : String),
      extSupported file = false → fileDispatch lm lt lp lh file = [] := by
    intro lm lt lp lh file h
    simp only [extSupported, Bool.or_eq_false_iff] at h
    obtain ⟨⟨⟨⟨h1, h2⟩, h3⟩, h4⟩, h5⟩ := h
    simp [fileDispatch, h1, h2, h3, h4, h5]
  refine ⟨load_directory_eq, hdisp, ?_⟩
  intro lm lt lp lh file pre post h
  rw [load_directory_eq, load_directory_eq, List.flatMap_append, List.flatMap_append,
    List.flatMap_cons, hdisp lm lt lp lh file h]
  simp

/-- Witness for C7: a directory with one Markdown file and one `.bin`
file — the `.bin` file is ignored. -/
theorem claim7_load_directory_witness :
    extSupported "x.bin" = false ∧
    DocumentLoader.load_directory (fun s => [⟨"md:" ++ s, []⟩]) (fun _ => [])
        (fun _ => []) (fun _ => []) (["a.md"] ++ "x.bin" :: [])
      = DocumentLoader.load_directory (fun s => [⟨"md:" ++ s, []⟩]) (fun _ => [])
          (fun _ => []) (fun _ => []) (["a.md"] ++ []) :=
  ⟨by rfl,
   claim7_load_directory.2.2 (fun s => [⟨"md:" ++ s, []⟩]) (fun _ => [])
     (fun _ => []) (fun _ => []) "x.bin" ["a.md"] [] (by rfl)⟩

/-! Claim C8. -/

/-- C8: the enhanced retriever's unified retrieve dispatches the three
recognized selectors to their retrievers, and any other selector fails
with a `ValueError` whose message names the unsupported type. -/
theorem claim8_retriever_dispatch :
    (∀ (base_get compression_get multi_query_get : String → List Document)
        (query retriever_type : String),
      retriever_type ≠ "base" → retriever_type ≠ "compression" →
      retriever_type ≠ "multi_query" →
      EnhancedRetriever.retrieve base_get compression_get multi_query_get
          query retriever_type
        = .error (.valueError ("不支持的检索器类型: " ++ retriever_type))) ∧
    (∀ (base_get compression_get multi_query_get : String → List Document)
        (query : String),
      EnhancedRetriever.retrieve base_get compression_get multi_query_get
          query "base" = .ok (base_get query) ∧
      EnhancedRetriever.retrieve base_get compression_get multi_query_get
          query "compression" = .ok (compression_get query) ∧
      EnhancedRetriever.retrieve base_get compression_get multi_query_get
          query "multi_query" = .ok (multi_query_get query)) := by
  constructor
  · intro base_get compression_get multi_query_get query retriever_type h1 h2 h3
    simp [EnhancedRetriever.retrieve, h1, h2, h3]
  · intro base_get compression_get multi_query_get query
    refine ⟨rfl, rfl, rfl⟩

/-- Witness for C8 at the unsupported selector `"bogus"` and the three
supported ones. -/
theorem claim8_retriever_dispatch_witness :
    EnhancedRetriever.retrieve (fun _ => []) (fun _ => []) (fun _ => []) "q" "bogus"
      = .error (.valueError ("不支持的检索器类型: " ++ "bogus")) ∧
    EnhancedRetriever.retrieve (fun s => [⟨"b" ++ s, []⟩]) (fun _ => [])
        (fun _ => []) "q" "base"
      = .ok ((fun s => [⟨"b" ++ s, []⟩] : String → List Document) "q") :=
  ⟨claim8_retriever_dispatch.1 (fun _ => []) (fun _ => []) (fun _ => []) "q" "bogus"
     (by decide) (by decide) (by decide),
   (claim8_retriever_dispatch.2 (fun s => [⟨"b" ++ s, []⟩]) (fun _ => [])
     (fun _ => []) "q").1⟩

end SimpleRAG
